import Mathlib

/-!
Shallow embedding of the blog service's authentication / authorization layer
and engagement state machine, translated from the server sources:
the user schema and its statics (User model), the Post model's like methods,
the Category model's materialized post count, the auth utilities
(token generation / verification, `authenticate`, `checkOwnership`),
the auth controller (`register`, `login`) and the post controller
(`getPost`, `createPost`, `updatePost`, `deletePost`).

Identifiers are Nat, timestamps are Nat (seconds), strings are Lean Strings.
Database documents are held in lists; a Mongo `findById` / `findOne` is a
`List.find?` on the id / predicate.  Fallible persistence (`save`) is made
explicit with a `saveOk : Bool` parameter on the operations whose source
awaits a save inside a try/catch, so that the catch branch of the source is
a visible branch of the embedding.
-/

/-- Account role, from the user schema: enum of `user` and `admin`,
default `user`. -/
inductive Role where
  | user
  | admin
deriving DecidableEq, Repr

/-- Account record, from the user schema: unique username, unique lowercased
email, password hash, role, active flag, optional last-login stamp. -/
structure Account where
  id : Nat
  username : String
  email : String
  passwordHash : String
  role : Role
  isActive : Bool
  lastLogin : Option Nat
deriving DecidableEq, Repr

/-- One entry of a post's like set, from the post schema:
a user reference and a creation stamp. -/
structure Like where
  user : Nat
  createdAt : Nat
deriving DecidableEq, Repr

/-- Post status, from the post schema: enum of draft, published, archived,
default published. -/
inductive Status where
  | draft
  | published
  | archived
deriving DecidableEq, Repr

/-- Post aggregate, from the post schema: content fields, category and author
references, status, view counter and embedded like set. -/
structure Post where
  id : Nat
  title : String
  content : String
  category : Nat
  author : Nat
  tags : List String
  status : Status
  views : Nat
  likes : List Like
deriving DecidableEq, Repr

/-- Instance method `addLike` of the Post model: if the user is already in
the like set the call is a no-op returning the current document, otherwise
the like is appended and the document saved. -/
def Post.addLike (p : Post) (userId now : Nat) : Post :=
  if p.likes.any (fun l => l.user == userId) then p
  else { p with likes := p.likes ++ [{ user := userId, createdAt := now }] }

/-- Instance method `removeLike` of the Post model: the user is filtered out
of the like set unconditionally and the document saved. -/
def Post.removeLike (p : Post) (userId : Nat) : Post :=
  { p with likes := p.likes.filter (fun l => l.user != userId) }

/-- Category record, from the category schema: name, active flag and the
denormalized count of published posts. -/
structure Category where
  id : Nat
  name : String
  isActive : Bool
  postCount : Nat
deriving DecidableEq, Repr

/-- Database state shared by the post controller: the post collection and the
category collection. -/
structure DB where
  posts : List Post
  categories : List Category
deriving DecidableEq, Repr

/-- Mongo lookup `Post.findById` over the embedded post collection. -/
def findPost (posts : List Post) (pid : Nat) : Option Post :=
  posts.find? (fun p => p.id == pid)

/-- Mongo lookup `Category.findById` over the embedded category collection. -/
def findCategory (categories : List Category) (cid : Nat) : Option Category :=
  categories.find? (fun c => c.id == cid)

/-- The authoritative count re-queried by `updatePostCount`:
`Post.countDocuments with category = cid and status = published`. -/
def countPublished (posts : List Post) (cid : Nat) : Nat :=
  (posts.filter (fun p => p.category == cid && p.status == Status.published)).length

/-- Instance method `updatePostCount` of the Category model: recompute the
category's materialized `postCount` from the authoritative query and save. -/
def updatePostCount (db : DB) (cid : Nat) : DB :=
  { db with
    categories := db.categories.map (fun c =>
      if c.id == cid then { c with postCount := countPublished db.posts cid } else c) }

/-- Request body of `updatePost`; a `none` field was absent from the request
and is stripped from the `findByIdAndUpdate` update, leaving the stored
field unchanged. -/
structure UpdateBody where
  title : Option String
  content : Option String
  category : Option Nat
  tags : Option (List String)
  status : Option Status
deriving DecidableEq, Repr

/-- The `findByIdAndUpdate` document update built by `updatePost`:
each supplied field overwrites the stored one, absent fields are kept. -/
def applyUpdate (p : Post) (b : UpdateBody) : Post :=
  { p with
    title := b.title.getD p.title
    content := b.content.getD p.content
    category := b.category.getD p.category
    tags := b.tags.getD p.tags
    status := b.status.getD p.status }

/-- Controller `getPost`: look the post up (404 when absent), increment its
view counter and save.  The save is awaited inside the controller's
try/catch, so a failed save (`saveOk = false`) lands in the catch branch,
which responds 500 without returning the post; the stored document is
unchanged in that case.  Result is the response status code paired with the
database afterwards. -/
def getPost (db : DB) (pid : Nat) (saveOk : Bool) : Nat × DB :=
  match findPost db.posts pid with
  | none => (404, db)
  | some _ =>
    if saveOk then
      (200, { db with posts := db.posts.map (fun q =>
        if q.id == pid then { q with views := q.views + 1 } else q) })
    else (500, db)

/-- Request body of `createPost`; `tags` and `status` fall back to `[]` and
`published` as in the controller. -/
structure CreateBody where
  title : String
  content : String
  category : Nat
  tags : Option (List String)
  status : Option Status
deriving DecidableEq, Repr

/-- Controller `createPost`: 400 when the supplied category does not exist,
otherwise persist the new post (author taken from the authenticated actor)
and recompute the category's post count; respond 201. -/
def createPost (db : DB) (actor : Account) (b : CreateBody) (freshId : Nat) : Nat × DB :=
  match findCategory db.categories b.category with
  | none => (400, db)
  | some _ =>
    let post : Post :=
      { id := freshId, title := b.title, content := b.content,
        category := b.category, author := actor.id,
        tags := b.tags.getD [], status := b.status.getD Status.published,
        views := 0, likes := [] }
    let db1 : DB := { db with posts := db.posts ++ [post] }
    (201, updatePostCount db1 b.category)

/-- Controller `updatePost`: 404 when the post is absent; 403 when the actor
is neither the author nor an admin; 400 when a category is supplied but does
not exist; otherwise apply the `findByIdAndUpdate` and respond 200.  No
category post count is recomputed on this path, exactly as in the source. -/
def updatePost (db : DB) (actor : Account) (pid : Nat) (b : UpdateBody) : Nat × DB :=
  match findPost db.posts pid with
  | none => (404, db)
  | some post =>
    if post.author ≠ actor.id ∧ actor.role ≠ Role.admin then (403, db)
    else
      let db1 : DB := { db with posts := db.posts.map (fun q =>
        if q.id == pid then applyUpdate q b else q) }
      match b.category with
      | some c => if (findCategory db.categories c).isNone then (400, db) else (200, db1)
      | none => (200, db1)

/-- Controller `deletePost`: 404 when the post is absent; 403 when the actor
is neither the author nor an admin; otherwise delete the document, recompute
the post count of the deleted post's category when that category still
exists, and respond 200. -/
def deletePost (db : DB) (actor : Account) (pid : Nat) : Nat × DB :=
  match findPost db.posts pid with
  | none => (404, db)
  | some post =>
    if post.author ≠ actor.id ∧ actor.role ≠ Role.admin then (403, db)
    else
      let db1 : DB := { db with posts := db.posts.filter (fun q => q.id != pid) }
      let db2 : DB :=
        match findCategory db1.categories post.category with
        | some _ => updatePostCount db1 post.category
        | none => db1
      (200, db2)

/-- Payload a token embeds: the account identifier and the issued-at time,
as in the signed `jwt.sign with userId` payload. -/
structure TokenPayload where
  userId : Nat
  iat : Nat
deriving DecidableEq, Repr

/-- Modelled from the spec: the deterministic HMAC-class signature over the
payload under the server-held secret, standing in for the external
`jsonwebtoken` signing primitive, which is not part of this repository.
Injective in the pair (secret, payload) via Nat pairing. -/
def sign (secret : Nat) (p : TokenPayload) : Nat :=
  Nat.pair secret (Nat.pair p.userId p.iat)

/-- A signed token: payload plus signature. -/
structure Token where
  payload : TokenPayload
  sig : Nat
deriving DecidableEq, Repr

/-- Default token lifetime: the JWT_EXPIRE fallback of 7 days, in seconds. -/
def jwtExpireDefault : Nat := 7 * 24 * 60 * 60

/-- Error raised by `verifyToken`, rethrown as the single message
`Invalid token` whatever the underlying cause. -/
inductive TokenError where
  | invalidToken
deriving DecidableEq, Repr

/-- Utility `generateToken`: sign the payload embedding the account id with
the process secret and the configured lifetime. -/
def generateToken (secret userId iat : Nat) : Token :=
  { payload := { userId := userId, iat := iat },
    sig := sign secret { userId := userId, iat := iat } }

/-- Utility `verifyToken`: modelled from the spec's Token Service contract
(the signature and expiry checks live in the external `jsonwebtoken`
library): the embedded account id is returned when the signature matches the
secret and the expiry (issued-at plus lifetime) has not elapsed at `now`;
any other token fails with the single `invalidToken` error. -/
def verifyToken (secret lifetime now : Nat) (t : Token) : Except TokenError Nat :=
  if t.sig = sign secret t.payload ∧ now < t.payload.iat + lifetime then
    Except.ok t.payload.userId
  else
    Except.error TokenError.invalidToken

/-- Mongo lookup `User.findById` over the embedded account collection. -/
def findAccount (accounts : List Account) (uid : Nat) : Option Account :=
  accounts.find? (fun a => a.id == uid)

/-- Outcome of the `authenticate` pipeline stage: either the request proceeds
to the downstream handler with the resolved account attached, or it
terminates with a 401 response. -/
inductive AuthResult where
  | proceed (accountId : Nat)
  | unauthorized
deriving DecidableEq, Repr

/-- Middleware `authenticate`: 401 when no bearer token is presented; verify
the token (a verification error is caught as 401); 401 when the named
account does not exist or is deactivated; then stamp `lastLogin` and await
the save.  The save is awaited inside the same try/catch, so a failed save
(`saveOk = false`) is caught and answered 401 instead of calling the next
handler.  Result is the outcome paired with the account collection
afterwards. -/
def authenticate (accounts : List Account) (secret lifetime now : Nat)
    (header : Option Token) (saveOk : Bool) : AuthResult × List Account :=
  match header with
  | none => (AuthResult.unauthorized, accounts)
  | some t =>
    match verifyToken secret lifetime now t with
    | Except.error _ => (AuthResult.unauthorized, accounts)
    | Except.ok uid =>
      match findAccount accounts uid with
      | none => (AuthResult.unauthorized, accounts)
      | some user =>
        if !user.isActive then (AuthResult.unauthorized, accounts)
        else if saveOk then
          (AuthResult.proceed user.id,
           accounts.map (fun a => if a.id == uid then { a with lastLogin := some now } else a))
        else
          (AuthResult.unauthorized, accounts)

/-- A resource as seen by the `checkOwnership` middleware: some resources
carry an author reference, some (such as categories) do not. -/
structure Resource where
  id : Nat
  author : Option Nat
deriving DecidableEq, Repr

/-- Outcome of the `checkOwnership` middleware: 404, 403 or the call to the
next handler. -/
inductive GateResult where
  | notFound
  | forbidden
  | proceed
deriving DecidableEq, Repr

/-- Middleware `checkOwnership`: 404 when the resource is absent; then 403
only when the resource carries an author that differs from the actor and the
actor is not an admin — the source guards the whole ownership test with the
truthiness of `resource.author`, so a resource without an author skips the
test and the request proceeds. -/
def checkOwnership (resources : List Resource) (actor : Account) (rid : Nat) : GateResult :=
  match resources.find? (fun r => r.id == rid) with
  | none => GateResult.notFound
  | some r =>
    match r.author with
    | some a =>
      if a ≠ actor.id ∧ actor.role ≠ Role.admin then GateResult.forbidden
      else GateResult.proceed
    | none => GateResult.proceed

/-- The JS `toLowerCase()` applied to the identifier strings of this service:
character-wise lowering (the service's emails and usernames are plain ASCII).
Written as a plain list map so that it evaluates by kernel reduction. -/
def toLowerCase (s : String) : String :=
  ⟨s.data.map Char.toLower⟩

/-- Which unique field a duplicate-registration response names. -/
inductive DupField where
  | email
  | username
deriving DecidableEq, Repr

/-- Outcome of `register`: 201 with the new account, or the 400 duplicate
response naming the duplicated field. -/
inductive RegisterResult where
  | created (accountId : Nat)
  | duplicate (field : DupField)
deriving DecidableEq, Repr

/-- Controller `register` (the password hash is the supplied `hash`
transform, standing for the schema's pre-save bcrypt hook): look for an
existing account whose stored email equals the lowercased requested email or
whose username equals the requested username; on a hit respond 400 naming
`email` when the hit's email matches, `username` otherwise, leaving the
store unchanged; otherwise persist the account (email stored lowercased by
the schema) and respond 201. -/
def register (hash : String → String) (accounts : List Account)
    (username email password : String) (freshId : Nat) : RegisterResult × List Account :=
  match accounts.find? (fun a => a.email == toLowerCase email || a.username == username) with
  | some existing =>
    (RegisterResult.duplicate
      (if existing.email = toLowerCase email then DupField.email else DupField.username),
     accounts)
  | none =>
    let newAccount : Account :=
      { id := freshId, username := username, email := toLowerCase email,
        passwordHash := hash password, role := Role.user,
        isActive := true, lastLogin := none }
    (RegisterResult.created freshId, accounts ++ [newAccount])

/-- Outcome of `login`: success with the resolved account, or one of the two
401 rejections. -/
inductive LoginResult where
  | success (accountId : Nat)
  | invalidCredentials
  | deactivated
deriving DecidableEq, Repr

/-- Static `findByEmailOrUsername` of the User model: first account whose
stored email equals the lowercased identifier or whose username equals the
identifier verbatim. -/
def findByEmailOrUsername (accounts : List Account) (identifier : String) : Option Account :=
  accounts.find? (fun a => a.email == toLowerCase identifier || a.username == identifier)

/-- Controller `login` (`cmp` is the bcrypt comparison of candidate password
against stored hash): resolve the identifier via `findByEmailOrUsername`;
401 when no account matches or the password comparison fails; 401 when the
account is deactivated; otherwise succeed with the resolved account. -/
def login (cmp : String → String → Bool) (accounts : List Account)
    (identifier password : String) : LoginResult :=
  match findByEmailOrUsername accounts identifier with
  | none => LoginResult.invalidCredentials
  | some user =>
    if !cmp password user.passwordHash then LoginResult.invalidCredentials
    else if !user.isActive then LoginResult.deactivated
    else LoginResult.success user.id

/-- Concrete published post, author account 10, category 1, used by the
concrete scenarios below. -/
def postScn : Post :=
  { id := 1, title := "t", content := "c", category := 1, author := 10,
    tags := [], status := Status.published, views := 0, likes := [] }

/-- Concrete category 1 whose materialized count (1) is in sync with the one
published post under it. -/
def catScn : Category :=
  { id := 1, name := "n", isActive := true, postCount := 1 }

/-- Concrete database holding the post and its category, with the category
count in sync. -/
def dbScn : DB := { posts := [postScn], categories := [catScn] }

/-- Concrete non-admin account 10, the author of `postScn`. -/
def authorScn : Account :=
  { id := 10, username := "alice", email := "alice@x.com", passwordHash := "h",
    role := Role.user, isActive := true, lastLogin := none }

/-- Concrete update body supplying only a category reference that exists in
no category collection of the scenarios. -/
def badCatBody : UpdateBody :=
  { title := none, content := none, category := some 99, tags := none, status := none }

/-- Concrete update body supplying only a new title. -/
def titleBody : UpdateBody :=
  { title := some "u", content := none, category := none, tags := none, status := none }

/-- Concrete update body supplying only a status change to draft. -/
def draftBody : UpdateBody :=
  { title := none, content := none, category := none, tags := none, status := some Status.draft }

/-- Concrete active account 7 for the authentication scenario. -/
def acctAuthScn : Account :=
  { id := 7, username := "bob", email := "bob@x.com", passwordHash := "h",
    role := Role.user, isActive := true, lastLogin := none }

/-- Concrete stored account for the duplicate-registration scenario; its
email is stored lowercased as the schema guarantees. -/
def acctRegScn : Account :=
  { id := 1, username := "bob", email := "bob@x.com", passwordHash := "h",
    role := Role.user, isActive := true, lastLogin := none }

/-- Concrete active account for the login-by-username scenario. -/
def acctLoginScn : Account :=
  { id := 3, username := "bob", email := "bob@x.com", passwordHash := "pw",
    role := Role.user, isActive := true, lastLogin := none }

/-- Concrete ownerless resource (a category, say) for the ownership-check
scenario. -/
def resScn : Resource := { id := 1, author := none }

/-- Concrete non-admin account 42 for the ownership-check scenario. -/
def acctOwnScn : Account :=
  { id := 42, username := "eve", email := "eve@x.com", passwordHash := "h",
    role := Role.user, isActive := true, lastLogin := none }

/-- Counterexample to C1 as stated: the actor is the author of the post, yet
the update does not succeed — supplying a nonexistent category id makes
`updatePost` answer 400 rather than 200. -/
theorem updatePost_author_invalid_category_counterexample :
    (updatePost dbScn authorScn 1 badCatBody).1 = 400 ∧
    (updatePost dbScn authorScn 1 badCatBody).1 ≠ 200 := by
  decide

/-- C1 (amended): for every update or delete request, a missing post yields
404 with the database unchanged, before any ownership check; an existing
post with an actor who is neither the author nor an admin yields 403 with
the database unchanged; an author or admin succeeds with 200, except that an
update supplying a category id that does not exist fails with 400. -/
theorem postMutation_access_control (db : DB) (actor : Account) (pid : Nat) (b : UpdateBody) :
    (findPost db.posts pid = none →
      updatePost db actor pid b = (404, db) ∧ deletePost db actor pid = (404, db)) ∧
    (∀ p, findPost db.posts pid = some p → p.author ≠ actor.id → actor.role ≠ Role.admin →
      updatePost db actor pid b = (403, db) ∧ deletePost db actor pid = (403, db)) ∧
    (∀ p, findPost db.posts pid = some p → (p.author = actor.id ∨ actor.role = Role.admin) →
      ((∀ c, b.category = some c → (findCategory db.categories c).isSome) →
        (updatePost db actor pid b).1 = 200) ∧
      (deletePost db actor pid).1 = 200) := by
  refine ⟨?_, ?_, ?_⟩
  · intro h
    exact ⟨by simp [updatePost, h], by simp [deletePost, h]⟩
  · intro p hp hna hnr
    exact ⟨by simp [updatePost, hp, hna, hnr], by simp [deletePost, hp, hna, hnr]⟩
  · intro p hp hauth
    have hcond : ¬(p.author ≠ actor.id ∧ actor.role ≠ Role.admin) := by tauto
    refine ⟨?_, by simp [deletePost, hp, hcond]⟩
    intro hcat
    cases hbc : b.category with
    | none => simp [updatePost, hp, hcond, hbc]
    | some c =>
      obtain ⟨cat, hcEq⟩ := Option.isSome_iff_exists.mp (hcat c hbc)
      simp [updatePost, hp, hcond, hbc, hcEq]

/-- Witness for C1 at a concrete input: the author updates the title of an
existing post (200) and deletes it (200). -/
theorem postMutation_access_control_witness :
    (updatePost dbScn authorScn 1 titleBody).1 = 200 ∧
    (deletePost dbScn authorScn 1).1 = 200 := by
  have h := (postMutation_access_control dbScn authorScn 1 titleBody).2.2 postScn rfl
    (Or.inl rfl)
  exact ⟨h.1 (by intro c hc; simp [titleBody] at hc), h.2⟩

/-- C2: the like sub-protocol is idempotent.  A second `addLike` for the same
account is a no-op returning the state produced by the first call (hence the
same like set and like-set size), and `removeLike` for an account that is not
in the like set leaves the post unchanged. -/
theorem addLike_idempotent_removeLike_noop (p : Post) (u n₁ n₂ : Nat) :
    (p.addLike u n₁).addLike u n₂ = p.addLike u n₁ ∧
    ((∀ l ∈ p.likes, l.user ≠ u) → p.removeLike u = p) := by
  constructor
  · by_cases h : p.likes.any (fun l => l.user == u)
    · simp [Post.addLike, h]
    · simp [Post.addLike, h]
  · intro hnot
    have hf : p.likes.filter (fun l => l.user != u) = p.likes := by
      apply List.filter_eq_self.mpr
      intro l hl
      simpa using hnot l hl
    simp [Post.removeLike, hf]

/-- Witness for C2 at a concrete post: liking twice equals liking once, and
removing an absent like changes nothing. -/
theorem addLike_idempotent_removeLike_noop_witness :
    let p : Post := { id := 1, title := "t", content := "c", category := 1,
                      author := 10, tags := [], status := Status.published,
                      views := 0, likes := [{ user := 4, createdAt := 0 }] }
    ((p.addLike 9 5).addLike 9 6 = p.addLike 9 5) ∧ p.removeLike 9 = p := by
  intro p
  exact ⟨(addLike_idempotent_removeLike_noop p 9 5 6).1,
         (addLike_idempotent_removeLike_noop p 9 5 6).2 (by decide)⟩

/-- C3: token verification returns the embedded account identifier exactly
when the signature matches the server secret and the expiry (issuance time
plus the configured lifetime) has not elapsed; in every other case it fails
with the single invalid-token error, never partially succeeding. -/
theorem verifyToken_ok_iff (secret lifetime now : Nat) (t : Token) (uid : Nat) :
    (verifyToken secret lifetime now t = Except.ok uid ↔
      t.sig = sign secret t.payload ∧ now < t.payload.iat + lifetime ∧
        uid = t.payload.userId) ∧
    (¬ (t.sig = sign secret t.payload ∧ now < t.payload.iat + lifetime) →
      verifyToken secret lifetime now t = Except.error TokenError.invalidToken) := by
  constructor
  · unfold verifyToken
    split
    case isTrue h =>
      constructor
      · intro he
        have huid : t.payload.userId = uid := by injection he
        exact ⟨h.1, h.2, huid.symm⟩
      · intro hr
        rw [hr.2.2]
    case isFalse h =>
      constructor
      · intro he
        exact absurd he (by simp)
      · intro hr
        exact absurd ⟨hr.1, hr.2.1⟩ h
  · intro h
    unfold verifyToken
    rw [if_neg h]

/-- Witness for C3: a token generated at time 3 with lifetime 10 verifies to
its account id at time 12 and is rejected at time 13. -/
theorem verifyToken_ok_iff_witness :
    verifyToken 5 10 12 (generateToken 5 42 3) = Except.ok 42 ∧
    verifyToken 5 10 13 (generateToken 5 42 3) = Except.error TokenError.invalidToken := by
  constructor
  · exact (verifyToken_ok_iff 5 10 12 (generateToken 5 42 3) 42).1.mpr
      ⟨rfl, by decide, rfl⟩
  · exact (verifyToken_ok_iff 5 10 13 (generateToken 5 42 3) 42).2 (by decide)

/-- C4 at the failing input: starting from a database whose category count
(1) is in sync, the post's author updates the post's status from published
to draft; `updatePost` answers 200 but the stored `postCount` stays 1 while
the re-queried authoritative count of published posts under the category is
0 — the materialized count is left stale, contrary to the recompute
requirement. -/
theorem updatePost_status_change_leaves_postCount_stale :
    (updatePost dbScn authorScn 1 draftBody).1 = 200 ∧
    ((updatePost dbScn authorScn 1 draftBody).2.categories.map
      (fun c => c.postCount)) = [1] ∧
    countPublished (updatePost dbScn authorScn 1 draftBody).2.posts 1 = 0 := by
  decide

/-- C5 at the failing input: three successful retrievals of the post
increment its view counter from 0 to exactly 3, but when persisting the
increment fails the whole read fails with 500 (database unchanged) instead
of still returning the post. -/
theorem getPost_view_increment_and_save_failure :
    ((getPost ((getPost ((getPost dbScn 1 true).2) 1 true).2) 1 true).2.posts.map
      (fun p => p.views)) = [3] ∧
    getPost dbScn 1 false = (500, dbScn) := by
  decide

/-- C6 at the failing input: with a valid token naming the existing active
account 7, `authenticate` proceeds when the last-login save succeeds, but
when that save fails the catch answers 401 — the best-effort stamp blocks
the request. -/
theorem authenticate_blocked_by_lastLogin_save_failure :
    (authenticate [acctAuthScn] 5 jwtExpireDefault 100 (some (generateToken 5 7 50)) true).1
      = AuthResult.proceed 7 ∧
    (authenticate [acctAuthScn] 5 jwtExpireDefault 100 (some (generateToken 5 7 50)) false).1
      = AuthResult.unauthorized := by
  decide

/-- C7: when the lowercased requested email or the requested username already
belongs to a stored account, `register` answers with the 400 duplicate
response, the account store is unchanged, and the field the response names
is genuinely duplicated. -/
theorem register_duplicate_rejected (hash : String → String) (accounts : List Account)
    (username email password : String) (freshId : Nat)
    (hdup : ∃ a ∈ accounts, a.email = toLowerCase email ∨ a.username = username) :
    ∃ f, register hash accounts username email password freshId
          = (RegisterResult.duplicate f, accounts) ∧
      (f = DupField.email → ∃ a ∈ accounts, a.email = toLowerCase email) ∧
      (f = DupField.username → ∃ a ∈ accounts, a.username = username) := by
  obtain ⟨a, ha, hPa⟩ := hdup
  have hsome :
      (accounts.find? (fun x => x.email == toLowerCase email || x.username == username)).isSome := by
    rw [List.find?_isSome]
    exact ⟨a, ha, by simpa using hPa⟩
  obtain ⟨b, hb⟩ := Option.isSome_iff_exists.mp hsome
  have hmem : b ∈ accounts := List.mem_of_find?_eq_some hb
  have hPb : b.email = toLowerCase email ∨ b.username = username := by
    have hfb := List.find?_some hb
    simpa using hfb
  refine ⟨if b.email = toLowerCase email then DupField.email else DupField.username, ?_, ?_, ?_⟩
  · unfold register
    rw [hb]
  · intro hf
    by_cases hbe : b.email = toLowerCase email
    · exact ⟨b, hmem, hbe⟩
    · rw [if_neg hbe] at hf
      cases hf
  · intro hf
    by_cases hbe : b.email = toLowerCase email
    · rw [if_pos hbe] at hf
      cases hf
    · rcases hPb with h1 | h2
      · exact absurd h1 hbe
      · exact ⟨b, hmem, h2⟩

/-- Witness for C7: registering a fresh username with the already-stored
email (in different letter case) is rejected as a duplicate with the store
unchanged. -/
theorem register_duplicate_rejected_witness :
    ∃ f, register (fun s => s) [acctRegScn] "zed" "Bob@X.com" "pw123456" 9
          = (RegisterResult.duplicate f, [acctRegScn]) ∧
      (f = DupField.email → ∃ a ∈ [acctRegScn], a.email = toLowerCase "Bob@X.com") ∧
      (f = DupField.username → ∃ a ∈ [acctRegScn], a.username = "zed") :=
  register_duplicate_rejected (fun s => s) [acctRegScn] "zed" "Bob@X.com" "pw123456" 9
    ⟨acctRegScn, by simp, Or.inl (by decide)⟩

/-- Counterexample to C9 as stated: a non-admin actor mutating an ownerless
resource is not denied — `checkOwnership` lets the request proceed instead
of answering 403. -/
theorem checkOwnership_ownerless_nonadmin_not_denied :
    checkOwnership [resScn] acctOwnScn 1 = GateResult.proceed ∧
    checkOwnership [resScn] acctOwnScn 1 ≠ GateResult.forbidden := by
  decide

/-- C9 (amended): when the resource exists but carries no author field,
`checkOwnership` skips the ownership test entirely and the request proceeds
for every authenticated actor, admin or not — role-only gating is not
enforced by this middleware. -/
theorem checkOwnership_ownerless_permits_every_actor (resources : List Resource)
    (actor : Account) (rid : Nat) (r : Resource)
    (hfind : resources.find? (fun x => x.id == rid) = some r)
    (hnone : r.author = none) :
    checkOwnership resources actor rid = GateResult.proceed := by
  unfold checkOwnership
  rw [hfind]
  simp [hnone]

/-- Witness for C9 (amended) at the concrete ownerless resource and non-admin
actor. -/
theorem checkOwnership_ownerless_permits_every_actor_witness :
    checkOwnership [resScn] acctOwnScn 1 = GateResult.proceed :=
  checkOwnership_ownerless_permits_every_actor [resScn] acctOwnScn 1 resScn rfl rfl

/-- C10: the login identifier is also matched against usernames, so an
existing active account whose username resolves through
`findByEmailOrUsername` authenticates successfully with the correct
password even though the request field is named email. -/
theorem login_accepts_username (cmp : String → String → Bool) (accounts : List Account)
    (u : Account) (password : String)
    (hfind : findByEmailOrUsername accounts u.username = some u)
    (hcmp : cmp password u.passwordHash = true)
    (hact : u.isActive = true) :
    login cmp accounts u.username password = LoginResult.success u.id := by
  unfold login
  rw [hfind]
  simp [hcmp, hact]

/-- Witness for C10: the stored account logs in by its username. -/
theorem login_accepts_username_witness :
    login (fun p h => p == h) [acctLoginScn] "bob" "pw" = LoginResult.success 3 :=
  login_accepts_username (fun p h => p == h) [acctLoginScn] acctLoginScn "pw" rfl rfl rfl
